import Mathlib

/-!
Verification of the AIPOlytics IPO-scraping and analysis service.

The development shallowly embeds the two Python modules of the repository:
`start.py` (dashboard scraper, detail-page aggregator, Gemini summarizer
wrapper) and `app.py` (Flask handlers over a process-wide cache).  HTML
inputs are modelled at the level the code inspects them (rows of cells,
flat node lists); time is in integral seconds; Python exceptions are the
`Except` monad; the external renderer/summarizer collaborators are
function parameters.

Python string operations are re-implemented structurally over `List Char`
so that every definition evaluates inside the kernel.
-/

/-- Python whitespace predicate for str.strip: space, tab, LF, CR, VT, FF. -/
def pyIsSpace (c : Char) : Bool :=
  c = ' ' || c = '\t' || c = '\n' || c = '\r' || c = '\x0b' || c = '\x0c'

/-- Python str.strip(): drop whitespace from both ends. -/
def pyStrip (s : String) : String :=
  String.mk (((s.toList.dropWhile pyIsSpace).reverse.dropWhile pyIsSpace).reverse)

/-- Python str.lower() (ASCII, as used for the status column). -/
def pyLower (s : String) : String :=
  String.mk (s.toList.map Char.toLower)

/-- Python substring membership `pat in s`. -/
def containsSub (s pat : String) : Bool :=
  s.toList.tails.any (fun t => pat.toList.isPrefixOf t)

/-- Python `s.startswith(pre)`. -/
def pyStartsWith (s pre : String) : Bool :=
  pre.toList.isPrefixOf s.toList

/-- Python `s.endswith(suf)`. -/
def pyEndsWith (s suf : String) : Bool :=
  suf.toList.isSuffixOf s.toList

/-- Python `s.replace(c, '')` for a one-character pattern: delete every
occurrence of the character. -/
def pyRemoveChar (c : Char) (s : String) : String :=
  String.mk (s.toList.filter (fun x => x ≠ c))

/-- Python slicing `s[n:]`. -/
def pyDrop (s : String) (n : Nat) : String :=
  String.mk (s.toList.drop n)

/-- Split a character list at every occurrence of `c`, keeping empty pieces
(the behaviour of Python `str.split(sep)` for a one-character separator). -/
def splitCharList (c : Char) : List Char → List (List Char)
  | [] => [[]]
  | x :: xs =>
    let r := splitCharList c xs
    if x = c then [] :: r
    else
      match r with
      | [] => [[x]]
      | y :: ys => (x :: y) :: ys

/-- Python `s.split('\n')`. -/
def pySplitLines (s : String) : List String :=
  (splitCharList '\n' s.toList).map String.mk

/-- The numbered-header prefixes checked by `line.startswith(('1.', ..., '6.'))`. -/
def numberedPrefixes : List String :=
  ["1.", "2.", "3.", "4.", "5.", "6."]

/-- Python `line.startswith(('1.','2.','3.','4.','5.','6.'))`. -/
def startsWithNumbered (s : String) : Bool :=
  numberedPrefixes.any (fun p => pyStartsWith s p)

/-- Ordered string→string mapping with Python dict assignment semantics:
an existing key is updated in place, a new key is appended at the end. -/
def dictInsert (k v : String) : List (String × String) → List (String × String)
  | [] => [(k, v)]
  | (k', v') :: rest => if k' = k then (k, v) :: rest else (k', v') :: dictInsert k v rest

/-- Loop state of parse_analysis_sections: the result mapping so far,
the open section title (if any) and its accumulated lines. -/
structure ParseState where
  sections : List (String × String)
  current_section : Option String
  current_content : List String

/-- Flush the open section (`if current_section: sections[...] = '\n'.join(...)`). -/
def flushSection (st : ParseState) : List (String × String) :=
  match st.current_section with
  | none => st.sections
  | some t => dictInsert t (String.intercalate "\n" st.current_content) st.sections

/-- One iteration of the `for line in lines` loop of parse_analysis_sections. -/
def parseLine (st : ParseState) (rawLine : String) : ParseState :=
  let line := pyStrip rawLine
  if line = "" then st
  else if (pyStartsWith line "**" && pyEndsWith line ":**") || startsWithNumbered line then
    let sections := flushSection st
    let title := pyStrip (pyRemoveChar ':' (pyRemoveChar '*' line))
    let title := if startsWithNumbered title then pyStrip (pyDrop title 2) else title
    { sections := sections, current_section := some title, current_content := [] }
  else
    { st with current_content := st.current_content ++ [line] }

/-- app.py parse_analysis_sections: split the analysis text into
title → body sections on the two header-line rules. -/
def parse_analysis_sections (analysis_text : String) : List (String × String) :=
  let lines := pySplitLines analysis_text
  let st := lines.foldl parseLine ⟨[], none, []⟩
  flushSection st

/-! ## start.py — dashboard scraper -/

/-- An IPO record as built by the dashboard scraper: company name and
fully qualified detail-page URL. -/
structure IPOListing where
  name : String
  url : String
deriving DecidableEq, Repr

/-- A table cell as the scraper inspects it: its text, and the result of
`cells[0].find('a')` — `none` when there is no anchor, `some none` when the
anchor has no href attribute, `some (some h)` when it has href `h`. -/
structure Cell where
  text : String
  anchorHref : Option (Option String)
deriving DecidableEq, Repr

/-- A table body row: its `td` cells in order. -/
structure Row where
  cells : List Cell
deriving DecidableEq, Repr

/-- The site origin prepended to relative detail-page links. -/
def siteOrigin : String := "https://www.chittorgarh.com"

/-- Python `cells[i]` under the row loop's length guard. -/
def cellAt (cells : List Cell) (i : Nat) : Cell :=
  cells.getD i ⟨"", none⟩

/-- One iteration of the scraper's row loop: append to the current or
upcoming list according to the trimmed, lowercased 4th-cell status, when the
first cell carries an anchor with an href; skip the row otherwise. -/
def processDashboardRow (acc : List IPOListing × List IPOListing) (row : Row) :
    List IPOListing × List IPOListing :=
  let (current_ipos, upcoming_ipos) := acc
  let cells := row.cells
  if cells.length ≥ 4 then
    let status := pyStrip (cellAt cells 3).text
    if pyLower status = "current" then
      let company_name := pyStrip (cellAt cells 0).text
      match (cellAt cells 0).anchorHref with
      | some (some relative_url) =>
          (current_ipos ++ [⟨company_name, siteOrigin ++ relative_url⟩], upcoming_ipos)
      | _ => (current_ipos, upcoming_ipos)
    else if pyLower status = "upcoming" then
      let company_name := pyStrip (cellAt cells 0).text
      match (cellAt cells 0).anchorHref with
      | some (some relative_url) =>
          (current_ipos, upcoming_ipos ++ [⟨company_name, siteOrigin ++ relative_url⟩])
      | _ => (current_ipos, upcoming_ipos)
    else (current_ipos, upcoming_ipos)
  else (current_ipos, upcoming_ipos)

/-- The dashboard page as the scraper sees it after rendering: whether an h2
whose text contains "Current IPOs (Mainboard)" is present, and, when a table
follows that heading, the rows of that table's body. -/
structure Dashboard where
  mainboard_header : Bool
  ipo_table : Option (List Row)
deriving DecidableEq, Repr

/-- What scrape_ipo_dashboard hands back to its caller.  The success path
returns the Python tuple `(current_ipos, upcoming_ipos)`; every failure path
(`WebDriverWait` timeout caught by the blanket `except`, missing header,
missing table) executes `return []`, a bare one-value empty list. -/
inductive ScrapeResult where
  | pair (current_ipos upcoming_ipos : List IPOListing)
  | emptyList
deriving DecidableEq, Repr

/-- start.py scrape_ipo_dashboard over the rendered dashboard. -/
def scrape_ipo_dashboard (d : Dashboard) : ScrapeResult :=
  if d.mainboard_header = false then ScrapeResult.emptyList
  else
    match d.ipo_table with
    | none => ScrapeResult.emptyList
    | some rows =>
        let acc := rows.foldl processDashboardRow ([], [])
        ScrapeResult.pair acc.1 acc.2

/-- The tuple unpacking `current_ipos, upcoming_ipos = scrape_ipo_dashboard()`
performed by every caller in app.py: unpacking the failure-path `[]` into two
variables raises ValueError. -/
def unpackScrape : ScrapeResult → Except String (List IPOListing × List IPOListing)
  | ScrapeResult.pair c u => Except.ok (c, u)
  | ScrapeResult.emptyList =>
      Except.error "ValueError: not enough values to unpack (expected 2, got 0)"

/-! ## start.py — detail-page aggregator -/

/-- A child of the detail page's container div, as parse_and_aggregate_data
walks it: either an h2/h3 heading (carrying its raw text) or any other
element (carrying its `get_text(separator=' ', strip=True)` flattening). -/
inductive Node where
  | heading (text : String)
  | element (text : String)
deriving DecidableEq, Repr

/-- The inner sibling loop: flattened text of nodes after a heading, up to
(not including) the next h2/h3 heading, each followed by a space. -/
def siblingText : List Node → String
  | [] => ""
  | Node.heading _ :: _ => ""
  | Node.element t :: rest => t ++ " " ++ siblingText rest

/-- The outer heading loop of parse_and_aggregate_data: for every h2/h3 in
document order, skip it when its text contains "Message Board", else emit
the section delimiter line and the section's sibling text. -/
def aggregateSections : List Node → String
  | [] => ""
  | Node.element _ :: rest => aggregateSections rest
  | Node.heading t :: rest =>
      if containsSub t "Message Board" then aggregateSections rest
      else
        "\n\n--- Section: " ++ pyStrip t ++ " ---\n" ++ siblingText rest
          ++ aggregateSections rest

/-- start.py parse_and_aggregate_data: `none` when the container div with
id "main" is absent, else the concatenated kept sections, trimmed. -/
def parse_and_aggregate_data (main_content : Option (List Node)) : Option String :=
  match main_content with
  | none => none
  | some nodes => some (pyStrip (aggregateSections nodes))

/-! ## start.py — Gemini summarizer wrapper -/

/-- The fixed instruction text the prompt places before the aggregated data. -/
def promptPrefix : String :=
  "\n    You are an expert IPO analyst with immense stock market knowledge, providing a summary for a retail investor. Based ONLY on the text provided below, generate a comprehensive analysis of the IPO. Structure your response as follows:\n    1.  **IPO Snapshot:** Briefly list the Issue Size, Price Band, and Dates.\n    2.  **Business Overview:** A one or two-sentence summary of what the company does.\n    3.  **Financial Health:** Briefly comment on the company's financial performance (revenue/profit trends) based on the data.\n    4.  **Positive Indicators (Reasons to consider applying):** Create a bulleted list of positive points.\n    5.  **Negative Indicators (Reasons for caution):** Create a bulleted list of negative points.\n    6.  **Final Verdict:** Conclude with a balanced, one-paragraph verdict based *strictly* on the provided information. Start with \"Based on the available data...\".\n\n    --- IPO DATA START ---\n    "

/-- The fixed text the prompt places after the aggregated data. -/
def promptSuffix : String :=
  "\n    --- IPO DATA END ---\n    "

/-- The f-string prompt of get_ipo_analysis_with_gemini, embedding the
aggregated text verbatim between the delimiter markers. -/
def buildPrompt (ipo_data_text : String) : String :=
  promptPrefix ++ ipo_data_text ++ promptSuffix

/-- start.py get_ipo_analysis_with_gemini.  The external model call is a
parameter returning either the response text or a raised exception's
message; the try/except turns any exception into an error-describing
string, so the function itself never raises. -/
def get_ipo_analysis_with_gemini (generate : String → Except String String)
    (ipo_data_text : String) : Except String String :=
  let prompt := buildPrompt ipo_data_text
  match generate prompt with
  | Except.ok response => Except.ok (pyStrip response)
  | Except.error e =>
      Except.ok ("An error occurred while communicating with the Google AI API: " ++ e)

/-! ## app.py — cache and handlers -/

/-- A memoized analysis result as stored in `ipo_cache['analyses']`. -/
structure AnalysisRecord where
  ipo : IPOListing
  ipo_type : String
  type_label : String
  raw_analysis : String
  sections : List (String × String)
  analyzed_at : Nat
deriving DecidableEq, Repr

/-- The process-wide `ipo_cache` dict.  Timestamps are integral seconds. -/
structure Cache where
  current_ipos : List IPOListing
  upcoming_ipos : List IPOListing
  last_updated : Option Nat
  analyses : List (String × AnalysisRecord)
deriving DecidableEq, Repr

/-- Ordered key→value mapping with Python dict assignment semantics for the
analyses mapping: an existing key is updated in place, a new key appended
at the end. -/
def dictStore (k : String) (v : AnalysisRecord) :
    List (String × AnalysisRecord) → List (String × AnalysisRecord)
  | [] => [(k, v)]
  | (k', v') :: rest => if k' = k then (k, v) :: rest else (k', v') :: dictStore k v rest

/-- Python `d[k]` / `k in d` on the analyses mapping. -/
def lookupAnalysis (k : String) : List (String × AnalysisRecord) → Option AnalysisRecord
  | [] => none
  | (k', v) :: rest => if k' = k then some v else lookupAnalysis k rest

/-- The memoization key `f"{ipo_type}_{ipo_index}_{ipo['name']}"`. -/
def analysisKey (ipo_type : String) (ipo_index : Nat) (name : String) : String :=
  ipo_type ++ "_" ++ toString ipo_index ++ "_" ++ name

/-- The staleness test of get_cached_ipos, exactly as written:
`not ipo_cache['last_updated'] or (current_time - last_updated).seconds > 3600`.
Python's `timedelta.seconds` is the seconds component after whole days are
removed, i.e. (for `now ≥ lu`) the age modulo 86400. -/
def cacheIsStale (now : Nat) (c : Cache) : Bool :=
  match c.last_updated with
  | none => true
  | some lu => (now - lu) % 86400 > 3600

/-- Outcome of a list-read: the returned pair, the cache afterwards, and how
many times scrape_ipo_dashboard ran (0 or 1). -/
structure ListReadResult where
  lists : List IPOListing × List IPOListing
  cache : Cache
  scrapes : Nat
deriving DecidableEq, Repr

/-- app.py get_cached_ipos.  The dashboard scrape is a parameter (`scrape`);
its result is tuple-unpacked, so a failure-path `[]` raises (Except.error),
before any cache field is written. -/
def get_cached_ipos (scrape : Unit → ScrapeResult) (now : Nat) (c : Cache) :
    Except String ListReadResult :=
  if cacheIsStale now c then
    match unpackScrape (scrape ()) with
    | Except.error e => Except.error e
    | Except.ok (current_ipos, upcoming_ipos) =>
        let c' : Cache := { c with
          current_ipos := if current_ipos.isEmpty then [] else current_ipos,
          upcoming_ipos := if upcoming_ipos.isEmpty then [] else upcoming_ipos,
          last_updated := some now }
        Except.ok ⟨(c'.current_ipos, c'.upcoming_ipos), c', 1⟩
  else
    Except.ok ⟨(c.current_ipos, c.upcoming_ipos), c, 0⟩

/-- A JSON response of the analyze endpoint, tagged by HTTP status. -/
inductive ApiResponse where
  | ok (data : AnalysisRecord)
  | badRequest (error : String)
  | serverError (error : String)
deriving DecidableEq, Repr

/-- The HTTP status code a response is served with. -/
def ApiResponse.statusCode : ApiResponse → Nat
  | ApiResponse.ok _ => 200
  | ApiResponse.badRequest _ => 400
  | ApiResponse.serverError _ => 500

/-- The external collaborators of the handlers: the dashboard scrape, the
detail-page renderer (None on timeout), the rendered page's container div
with id "main" (None when absent), and the Gemini model call (which may
raise). -/
structure Env where
  scrape : Unit → ScrapeResult
  render : String → Option String
  findMainDiv : String → Option (List Node)
  generate : String → Except String String

/-- Outcome of one analyze request: the response, the cache afterwards, and
how many times the Gemini summarizer ran. -/
structure HandlerResult where
  response : ApiResponse
  cache : Cache
  geminiCalls : Nat
deriving DecidableEq, Repr

/-- Python `ipos[ipo_index]` under the handler's range guard. -/
def listingAt (ipos : List IPOListing) (i : Nat) : IPOListing :=
  ipos.getD i ⟨"", ""⟩

/-- The analyze handler's tail after the IPO list is chosen: index
validation, memoization lookup, and the render → aggregate → summarize →
section-parse pipeline with its per-stage 500 responses. -/
def analyzeWithList (env : Env) (ipo_type type_label : String)
    (ipos : List IPOListing) (ipo_index : Nat) (now : Nat) (c : Cache) : HandlerResult :=
  if ipo_index ≥ ipos.length then
    ⟨ApiResponse.badRequest ("IPO index out of range for " ++ ipo_type ++ " IPOs"), c, 0⟩
  else
    let ipo := listingAt ipos ipo_index
    let ipo_key := analysisKey ipo_type ipo_index ipo.name
    match lookupAnalysis ipo_key c.analyses with
    | some data => ⟨ApiResponse.ok data, c, 0⟩
    | none =>
        match env.render ipo.url with
        | none => ⟨ApiResponse.serverError "Could not retrieve IPO details page", c, 0⟩
        | some html_content =>
            match parse_and_aggregate_data (env.findMainDiv html_content) with
            | none => ⟨ApiResponse.serverError "Could not parse IPO data from the page", c, 0⟩
            | some aggregated_data =>
                if aggregated_data = "" then
                  ⟨ApiResponse.serverError "Could not parse IPO data from the page", c, 0⟩
                else
                  match get_ipo_analysis_with_gemini env.generate aggregated_data with
                  | Except.error e => ⟨ApiResponse.serverError e, c, 1⟩
                  | Except.ok analysis_text =>
                      let analysis_sections := parse_analysis_sections analysis_text
                      let analysis_data : AnalysisRecord :=
                        ⟨ipo, ipo_type, type_label, analysis_text, analysis_sections, now⟩
                      ⟨ApiResponse.ok analysis_data,
                        { c with analyses := dictStore ipo_key analysis_data c.analyses }, 1⟩

/-- app.py analyze_ipo: list-read (re-scraping when stale), ipo_type
validation, then `analyzeWithList`.  An exception out of the list-read is
caught by the handler's try/except and served as HTTP 500. -/
def analyze_ipo (env : Env) (ipo_type : String) (ipo_index : Nat) (now : Nat)
    (c : Cache) : HandlerResult :=
  match get_cached_ipos env.scrape now c with
  | Except.error e => ⟨ApiResponse.serverError e, c, 0⟩
  | Except.ok r =>
      let c := r.cache
      if ipo_type = "current" then
        analyzeWithList env ipo_type "CURRENT" r.lists.1 ipo_index now c
      else if ipo_type = "upcoming" then
        analyzeWithList env ipo_type "UPCOMING" r.lists.2 ipo_index now c
      else
        ⟨ApiResponse.badRequest "Invalid IPO type. Must be \x22current\x22 or \x22upcoming\x22", c, 0⟩

/-- A JSON response of the /api/ipos endpoint. -/
inductive IposResponse where
  | ok (current_ipos upcoming_ipos : List IPOListing) (counts : Nat × Nat × Nat)
      (last_updated : Option Nat)
  | serverError (error : String)
deriving DecidableEq, Repr

/-- app.py get_ipos: list-read, then the success envelope with counts and
the cache's `last_updated` (serialized as null when None). -/
def get_ipos (env : Env) (now : Nat) (c : Cache) : IposResponse × Cache :=
  match get_cached_ipos env.scrape now c with
  | Except.error e => (IposResponse.serverError e, c)
  | Except.ok r =>
      (IposResponse.ok r.lists.1 r.lists.2
        (r.lists.1.length, r.lists.2.length, r.lists.1.length + r.lists.2.length)
        r.cache.last_updated, r.cache)

/-- A JSON response of the /api/refresh endpoint. -/
inductive RefreshResponse where
  | ok (message : String) (counts : Nat × Nat × Nat)
  | serverError (error : String)
deriving DecidableEq, Repr

/-- app.py refresh_ipos: reset every cache field (lists empty, timestamp
None, analyses cleared), then run the same list-read, which always
re-scrapes because the timestamp was just cleared. -/
def refresh_ipos (env : Env) (now : Nat) (_c : Cache) : RefreshResponse × Cache :=
  let cleared : Cache := ⟨[], [], none, []⟩
  match get_cached_ipos env.scrape now cleared with
  | Except.error e => (RefreshResponse.serverError e, cleared)
  | Except.ok r =>
      (RefreshResponse.ok "IPO data refreshed successfully"
        (r.lists.1.length, r.lists.2.length, r.lists.1.length + r.lists.2.length), r.cache)

/-! ## Claim-side characterizations and concrete fixtures -/

/-- Claim-side reading of one dashboard row: when the row has at least 4
cells, its 4th cell's trimmed text case-insensitively equals `status`, and
its 1st cell carries an anchor with an href, the listing built from the 1st
cell's trimmed text and the href resolved against the site origin; `none`
otherwise. -/
def rowListingFor (status : String) (row : Row) : Option IPOListing :=
  if row.cells.length ≥ 4 then
    if pyLower (pyStrip (cellAt row.cells 3).text) = status then
      match (cellAt row.cells 0).anchorHref with
      | some (some href) =>
          some ⟨pyStrip (cellAt row.cells 0).text, siteOrigin ++ href⟩
      | _ => none
    else none
  else none

/-- Claim-side reading of the detail page: the h2/h3 headings of the
container in document order, each with its raw text and the joined text of
the following sibling nodes up to the next h2/h3 heading. -/
def sectionsOf : List Node → List (String × String)
  | [] => []
  | Node.element _ :: rest => sectionsOf rest
  | Node.heading t :: rest => (t, siblingText rest) :: sectionsOf rest

/-- Claim-side rendering of one section: dropped entirely when the heading
text contains "Message Board", else the delimiter line with the trimmed
heading text followed by the section's sibling text. -/
def renderSection (sec : String × String) : Option String :=
  if containsSub sec.1 "Message Board" then none
  else some ("\n\n--- Section: " ++ pyStrip sec.1 ++ " ---\n" ++ sec.2)

/-- Concatenation of a list of strings in order. -/
def concatList : List String → String
  | [] => ""
  | s :: rest => s ++ concatList rest

/-- A concrete listing used by the witness instantiations. -/
def testIpo : IPOListing :=
  ⟨"Acme", "https://www.chittorgarh.com/ipo/acme"⟩

/-- A concrete environment whose collaborators all succeed. -/
def testEnv : Env where
  scrape := fun _ => ScrapeResult.pair [testIpo] []
  render := fun _ => some "html"
  findMainDiv := fun _ => some [Node.heading "Overview", Node.element "Body text"]
  generate := fun _ => Except.ok "**Snapshot:**\nGood"

/-- A concrete cache that is fresh at time 0 and holds one current IPO. -/
def freshCache : Cache := ⟨[testIpo], [], some 0, []⟩

/-- The empty cache (also the state right after a process start). -/
def emptyCache : Cache := ⟨[], [], none, []⟩

/-- The record the analyze pipeline computes for `testIpo` under `testEnv`
at time 0. -/
def sampleRecord : AnalysisRecord :=
  ⟨testIpo, "current", "CURRENT", "**Snapshot:**\nGood", [("Snapshot", "Good")], 0⟩

/-- A fresh cache that already memoizes an analysis for the key of
`testIpo` in the current list. -/
def preloadedCache : Cache :=
  ⟨[testIpo], [], some 0, [(analysisKey "current" 0 "Acme", sampleRecord)]⟩

/-! ## Theorems -/

/-- C4: parse_analysis_sections maps the bold-header sample text to exactly
the mapping Snapshot ↦ Line A, Verdict ↦ Line B, and the numbered-header
sample to the same mapping with the leading digit-period tokens stripped. -/
theorem parse_analysis_sections_samples :
    parse_analysis_sections "**Snapshot:**\nLine A\n**Verdict:**\nLine B"
      = [("Snapshot", "Line A"), ("Verdict", "Line B")] ∧
    parse_analysis_sections "1. Snapshot\nLine A\n2. Verdict\nLine B"
      = [("Snapshot", "Line A"), ("Verdict", "Line B")] :=
  ⟨by decide, by decide⟩

/-- C1 (counter-evaluation): on a dashboard without the mainboard heading —
or without a table after it — scrape_ipo_dashboard returns the bare empty
list, not a pair of empty lists, and the caller's two-variable tuple
unpacking of that value raises ValueError. -/
theorem scrape_dashboard_missing_header_bare_empty_list :
    scrape_ipo_dashboard ⟨false, none⟩ = ScrapeResult.emptyList ∧
    scrape_ipo_dashboard ⟨true, none⟩ = ScrapeResult.emptyList ∧
    unpackScrape ScrapeResult.emptyList
      = Except.error "ValueError: not enough values to unpack (expected 2, got 0)" :=
  ⟨rfl, rfl, rfl⟩

/-- C2 (counter-evaluation): a cache 25 hours old (last_updated = 0, now =
90000) is treated as fresh — `(now − last_updated).seconds` is 3600, not
90000 — so the list-read performs no re-scrape and returns the stale lists,
although fresh data was available from the scrape. -/
theorem get_cached_ipos_25_hour_old_cache_skips_rescrape :
    cacheIsStale 90000 (Cache.mk [] [] (some 0) []) = false ∧
    get_cached_ipos (fun _ => ScrapeResult.pair [testIpo] []) 90000
        (Cache.mk [] [] (some 0) [])
      = Except.ok ⟨([], []), Cache.mk [] [] (some 0) [], 0⟩ :=
  ⟨by decide, rfl⟩

/-- C9: get_ipo_analysis_with_gemini never raises: for every model behaviour
it returns a string, and when the model call raises, the returned string is
the error-describing sentinel text. -/
theorem gemini_wrapper_never_raises (generate : String → Except String String)
    (ipo_data_text : String) :
    (∃ s, get_ipo_analysis_with_gemini generate ipo_data_text = Except.ok s) ∧
    ∀ e, generate (buildPrompt ipo_data_text) = Except.error e →
      get_ipo_analysis_with_gemini generate ipo_data_text
        = Except.ok ("An error occurred while communicating with the Google AI API: " ++ e) := by
  constructor
  · unfold get_ipo_analysis_with_gemini
    cases h : generate (buildPrompt ipo_data_text) with
    | ok r => exact ⟨pyStrip r, by simp [h]⟩
    | error e =>
        exact ⟨"An error occurred while communicating with the Google AI API: " ++ e,
          by simp [h]⟩
  · intro e he
    unfold get_ipo_analysis_with_gemini
    simp [he]

/-- Witness for C9: a model call that raises "boom" yields the sentinel
string, not an exception. -/
theorem gemini_wrapper_never_raises_witness :
    get_ipo_analysis_with_gemini (fun _ => Except.error "boom") "data"
      = Except.ok ("An error occurred while communicating with the Google AI API: " ++ "boom") :=
  (gemini_wrapper_never_raises (fun _ => Except.error "boom") "data").2 "boom" rfl

/-- One dashboard row contributes to the scraped pair exactly its claim-side
current and upcoming readings, appended in order. -/
theorem processDashboardRow_spec (acc : List IPOListing × List IPOListing) (row : Row) :
    processDashboardRow acc row
      = (acc.1 ++ (rowListingFor "current" row).toList,
         acc.2 ++ (rowListingFor "upcoming" row).toList) := by
  obtain ⟨cur, up⟩ := acc
  simp only [processDashboardRow, rowListingFor]
  by_cases h4 : row.cells.length ≥ 4
  · simp only [h4, if_true]
    by_cases hc : pyLower (pyStrip (cellAt row.cells 3).text) = "current"
    · have hu : pyLower (pyStrip (cellAt row.cells 3).text) ≠ "upcoming" := by
        rw [hc]; decide
      simp only [hc, hu, if_true, if_false]
      cases ha : (cellAt row.cells 0).anchorHref with
      | none => simp
      | some o =>
        cases o with
        | none => simp
        | some href => simp
    · by_cases hu : pyLower (pyStrip (cellAt row.cells 3).text) = "upcoming"
      · simp only [hc, hu, if_true, if_false]
        cases ha : (cellAt row.cells 0).anchorHref with
        | none => simp
        | some o =>
          cases o with
          | none => simp
          | some href => simp
      · simp [hc, hu]
  · simp [h4]

/-- The scraper's row loop equals the claim-side per-row classification,
appended behind the starting accumulators. -/
theorem foldl_processDashboardRow (rows : List Row) (cur up : List IPOListing) :
    rows.foldl processDashboardRow (cur, up)
      = (cur ++ rows.filterMap (rowListingFor "current"),
         up ++ rows.filterMap (rowListingFor "upcoming")) := by
  induction rows generalizing cur up with
  | nil => simp
  | cons r rest ih =>
    rw [List.foldl_cons, processDashboardRow_spec, ih]
    cases h1 : rowListingFor "current" r <;> cases h2 : rowListingFor "upcoming" r <;>
      simp [List.filterMap_cons, h1, h2]

/-- C3: over every dashboard table body, the scraped pair is exactly the
rows' claim-side classification: rows with status "current" and an anchored
first cell appear, in row order, in the current list; rows with status
"upcoming" likewise in the upcoming list; all other rows in neither. -/
theorem scrape_dashboard_row_classification (rows : List Row) :
    scrape_ipo_dashboard ⟨true, some rows⟩
      = ScrapeResult.pair (rows.filterMap (rowListingFor "current"))
          (rows.filterMap (rowListingFor "upcoming")) := by
  show ScrapeResult.pair _ _ = _
  rw [foldl_processDashboardRow]
  simp

/-- The outer heading loop equals the claim-side section decomposition:
concatenate, in document order, the renderings of the kept sections. -/
theorem aggregateSections_spec (ns : List Node) :
    aggregateSections ns = concatList ((sectionsOf ns).filterMap renderSection) := by
  induction ns with
  | nil => rfl
  | cons n rest ih =>
    cases n with
    | element t =>
        simpa only [aggregateSections, sectionsOf] using ih
    | heading t =>
        simp only [aggregateSections, sectionsOf, List.filterMap_cons, renderSection]
        by_cases h : containsSub t "Message Board"
        · simp [h, ih]
        · simp [h, ih, concatList]

/-- C8: with the container present, parse_and_aggregate_data returns the
concatenation, trimmed, of one rendering per kept h2/h3 heading in document
order: headings containing "Message Board" contribute nothing, every other
heading contributes a delimiter line with its trimmed text followed by the
joined text of the siblings up to the next h2/h3 heading. -/
theorem parse_and_aggregate_data_sections (ns : List Node) :
    parse_and_aggregate_data (some ns)
      = some (pyStrip (concatList ((sectionsOf ns).filterMap renderSection))) := by
  simp only [parse_and_aggregate_data, aggregateSections_spec]

/-- A list-read that returns normally leaves a timestamp in the cache:
either the stale branch just wrote `some now`, or freshness itself implies
the timestamp was already present. -/
theorem get_cached_ipos_ok_timestamp (scrape : Unit → ScrapeResult) (now : Nat)
    (c : Cache) (r : ListReadResult)
    (h : get_cached_ipos scrape now c = Except.ok r) :
    ∃ t, r.cache.last_updated = some t := by
  unfold get_cached_ipos at h
  by_cases hs : cacheIsStale now c = true
  · rw [if_pos hs] at h
    cases hu : unpackScrape (scrape ()) with
    | error e => rw [hu] at h; exact absurd h (by simp)
    | ok p =>
        obtain ⟨cu, uu⟩ := p
        rw [hu] at h
        simp only [Except.ok.injEq] at h
        subst h
        exact ⟨now, rfl⟩
  · rw [if_neg hs] at h
    simp only [Except.ok.injEq] at h
    subst h
    unfold cacheIsStale at hs
    cases hl : c.last_updated with
    | none => rw [hl] at hs; simp at hs
    | some t => exact ⟨t, rfl⟩

/-- C10: every successful /api/ipos response carries a non-null
last_updated: whenever get_cached_ipos returns normally a timestamp is set,
so the ok envelope's last_updated field is never None. -/
theorem get_ipos_success_last_updated_nonnull (env : Env) (now : Nat) (c : Cache)
    (cur up : List IPOListing) (counts : Nat × Nat × Nat) (lu : Option Nat) (c' : Cache)
    (h : get_ipos env now c = (IposResponse.ok cur up counts lu, c')) :
    ∃ t, lu = some t := by
  unfold get_ipos at h
  cases hg : get_cached_ipos env.scrape now c with
  | error e => rw [hg] at h; exact absurd h (by simp)
  | ok r =>
      rw [hg] at h
      simp only [Prod.mk.injEq, IposResponse.ok.injEq] at h
      obtain ⟨⟨-, -, -, hlu⟩, -⟩ := h
      obtain ⟨t, ht⟩ := get_cached_ipos_ok_timestamp env.scrape now c r hg
      exact ⟨t, hlu ▸ ht⟩

/-- Witness for C10: reading the concrete fresh cache succeeds and its
last_updated is non-null. -/
theorem get_ipos_success_last_updated_nonnull_witness :
    ∃ t, (some 0 : Option Nat) = some t :=
  get_ipos_success_last_updated_nonnull testEnv 0 freshCache [testIpo] []
    (1, 0, 1) (some 0) freshCache rfl

/-- A scrape that completes with a pair makes the list-read total: it
returns normally whatever the cache state. -/
theorem get_cached_ipos_ok_of_pair (scrape : Unit → ScrapeResult) (now : Nat)
    (c : Cache) (cur up : List IPOListing) (hscrape : scrape () = ScrapeResult.pair cur up) :
    ∃ r, get_cached_ipos scrape now c = Except.ok r := by
  unfold get_cached_ipos
  by_cases hs : cacheIsStale now c = true
  · rw [if_pos hs, hscrape]
    exact ⟨_, rfl⟩
  · rw [if_neg hs]
    exact ⟨_, rfl⟩

/-- C6: for every cache state (fresh, stale or empty), an analyze request
whose ipo_type is neither "current" nor "upcoming" is answered with the
invalid-type error as HTTP 400 — never any other status — provided the
dashboard scrape (run first when the cache is stale) completes normally. -/
theorem analyze_invalid_type_is_400 (env : Env) (ipo_type : String)
    (ipo_index now : Nat) (c : Cache) (cur up : List IPOListing)
    (hscrape : env.scrape () = ScrapeResult.pair cur up)
    (hcur : ipo_type ≠ "current") (hup : ipo_type ≠ "upcoming") :
    (analyze_ipo env ipo_type ipo_index now c).response
        = ApiResponse.badRequest "Invalid IPO type. Must be \x22current\x22 or \x22upcoming\x22" ∧
    ((analyze_ipo env ipo_type ipo_index now c).response).statusCode = 400 := by
  obtain ⟨r, hr⟩ := get_cached_ipos_ok_of_pair env.scrape now c cur up hscrape
  have : analyze_ipo env ipo_type ipo_index now c
      = ⟨ApiResponse.badRequest "Invalid IPO type. Must be \x22current\x22 or \x22upcoming\x22",
          r.cache, 0⟩ := by
    unfold analyze_ipo
    rw [hr]
    dsimp only
    rw [if_neg hcur, if_neg hup]
  rw [this]
  exact ⟨rfl, rfl⟩

/-- Witness for C6: analyze with ipo_type "bogus" on the empty (stale)
cache returns the invalid-type error with status 400. -/
theorem analyze_invalid_type_is_400_witness :
    (analyze_ipo testEnv "bogus" 0 0 emptyCache).response
        = ApiResponse.badRequest "Invalid IPO type. Must be \x22current\x22 or \x22upcoming\x22" ∧
    ((analyze_ipo testEnv "bogus" 0 0 emptyCache).response).statusCode = 400 :=
  analyze_invalid_type_is_400 testEnv "bogus" 0 0 emptyCache [testIpo] [] rfl
    (by decide) (by decide)

/-- Python dict assignment followed by lookup of the same key yields the
assigned value. -/
theorem lookupAnalysis_dictStore (k : String) (v : AnalysisRecord)
    (d : List (String × AnalysisRecord)) :
    lookupAnalysis k (dictStore k v d) = some v := by
  induction d with
  | nil => simp [dictStore, lookupAnalysis]
  | cons p rest ih =>
    obtain ⟨k', v'⟩ := p
    by_cases hk : k' = k
    · simp [dictStore, lookupAnalysis, hk]
    · simp [dictStore, lookupAnalysis, hk, ih]

/-- A list-read on a fresh cache returns the cached lists unchanged and
performs no scrape. -/
theorem get_cached_ipos_fresh (scrape : Unit → ScrapeResult) (now : Nat) (c : Cache)
    (h : cacheIsStale now c = false) :
    get_cached_ipos scrape now c
      = Except.ok ⟨(c.current_ipos, c.upcoming_ipos), c, 0⟩ := by
  unfold get_cached_ipos
  rw [if_neg (by simp [h])]

/-- A memoization hit: with the index in range and the key stored, the
analyze tail returns the stored record, changes nothing and runs no
summarization. -/
theorem analyzeWithList_hit (env : Env) (ty lbl : String) (ipos : List IPOListing)
    (idx now : Nat) (c : Cache) (rec : AnalysisRecord)
    (hidx : ¬ idx ≥ ipos.length)
    (hkey : lookupAnalysis (analysisKey ty idx (listingAt ipos idx).name) c.analyses
      = some rec) :
    analyzeWithList env ty lbl ipos idx now c = ⟨ApiResponse.ok rec, c, 0⟩ := by
  unfold analyzeWithList
  rw [if_neg hidx]
  dsimp only
  rw [hkey]

/-- A memoization miss that ends in a success response ran the whole
pipeline: the index was in range, the summarizer ran exactly once, and the
response's record was stored under the key. -/
theorem analyzeWithList_run (env : Env) (ty lbl : String) (ipos : List IPOListing)
    (idx now : Nat) (c : Cache) (rec : AnalysisRecord)
    (hkey : lookupAnalysis (analysisKey ty idx (listingAt ipos idx).name) c.analyses = none)
    (hok : (analyzeWithList env ty lbl ipos idx now c).response = ApiResponse.ok rec) :
    idx < ipos.length ∧
    analyzeWithList env ty lbl ipos idx now c
      = ⟨ApiResponse.ok rec,
          { c with analyses :=
              dictStore (analysisKey ty idx (listingAt ipos idx).name) rec c.analyses },
          1⟩ := by
  unfold analyzeWithList at hok ⊢
  by_cases hidx : idx ≥ ipos.length
  · rw [if_pos hidx] at hok
    exact absurd hok (by simp)
  · rw [if_neg hidx] at hok ⊢
    dsimp only at hok ⊢
    rw [hkey] at hok ⊢
    dsimp only at hok ⊢
    refine ⟨by omega, ?_⟩
    cases hr : env.render (listingAt ipos idx).url with
    | none => rw [hr] at hok; exact absurd hok (by simp)
    | some html =>
        rw [hr] at hok
        dsimp only at hok ⊢
        cases hp : parse_and_aggregate_data (env.findMainDiv html) with
        | none => rw [hp] at hok; exact absurd hok (by simp)
        | some ag =>
            rw [hp] at hok
            dsimp only at hok ⊢
            by_cases hag : ag = ""
            · rw [if_pos hag] at hok
              exact absurd hok (by simp)
            · rw [if_neg hag] at hok ⊢
              cases hg : get_ipo_analysis_with_gemini env.generate ag with
              | error e => rw [hg] at hok; exact absurd hok (by simp)
              | ok txt =>
                  rw [hg] at hok
                  dsimp only at hok ⊢
                  injection hok with h
                  subst h
                  rfl

/-- On a fresh cache an analyze call for type "current" is the analyze tail
over the cached current list. -/
theorem analyze_ipo_fresh_current (env : Env) (idx now : Nat) (c : Cache)
    (hfresh : cacheIsStale now c = false) :
    analyze_ipo env "current" idx now c
      = analyzeWithList env "current" "CURRENT" c.current_ipos idx now c := by
  unfold analyze_ipo
  rw [get_cached_ipos_fresh env.scrape now c hfresh]
  rfl

/-- On a fresh cache an analyze call for type "upcoming" is the analyze tail
over the cached upcoming list. -/
theorem analyze_ipo_fresh_upcoming (env : Env) (idx now : Nat) (c : Cache)
    (hfresh : cacheIsStale now c = false) :
    analyze_ipo env "upcoming" idx now c
      = analyzeWithList env "upcoming" "UPCOMING" c.upcoming_ipos idx now c := by
  unfold analyze_ipo
  rw [get_cached_ipos_fresh env.scrape now c hfresh]
  rfl

/-- C5: with a fresh cache and a valid (type, index) pair whose key is not
yet memoized, a successful analyze call runs the summarizer exactly once and
stores its record under the key, and the consecutive second call for the
same key returns that stored record unchanged — same response, same cache —
running the summarizer zero times, so the two calls together invoke it at
most once. -/
theorem analyze_ipo_memoizes (env : Env) (ipo_type : String) (idx now now2 : Nat)
    (c : Cache) (ipos : List IPOListing) (rec : AnalysisRecord)
    (hfresh : cacheIsStale now c = false)
    (hfresh2 : cacheIsStale now2 c = false)
    (htype : ipo_type = "current" ∨ ipo_type = "upcoming")
    (hlist : ipos = if ipo_type = "current" then c.current_ipos else c.upcoming_ipos)
    (hkey : lookupAnalysis (analysisKey ipo_type idx (listingAt ipos idx).name)
      c.analyses = none)
    (hok : (analyze_ipo env ipo_type idx now c).response = ApiResponse.ok rec) :
    (analyze_ipo env ipo_type idx now c).geminiCalls = 1 ∧
    lookupAnalysis (analysisKey ipo_type idx (listingAt ipos idx).name)
        (analyze_ipo env ipo_type idx now c).cache.analyses = some rec ∧
    analyze_ipo env ipo_type idx now2 (analyze_ipo env ipo_type idx now c).cache
      = ⟨ApiResponse.ok rec, (analyze_ipo env ipo_type idx now c).cache, 0⟩ := by
  rcases htype with hty | hty
  · subst hty
    rw [if_pos rfl] at hlist
    subst hlist
    rw [analyze_ipo_fresh_current env idx now c hfresh] at hok ⊢
    obtain ⟨hlt, hrun⟩ := analyzeWithList_run env "current" "CURRENT"
      c.current_ipos idx now c rec hkey hok
    rw [hrun]
    dsimp only
    refine ⟨rfl, lookupAnalysis_dictStore _ _ _, ?_⟩
    have hfresh2' : cacheIsStale now2 ({ c with analyses := dictStore (analysisKey "current" idx (listingAt c.current_ipos idx).name) rec c.analyses } : Cache) = false := hfresh2
    rw [analyze_ipo_fresh_current env idx now2 _ hfresh2']
    dsimp only
    exact analyzeWithList_hit env "current" "CURRENT" c.current_ipos idx now2 _ rec
      (by omega) (lookupAnalysis_dictStore _ _ _)
  · subst hty
    rw [if_neg (by decide)] at hlist
    subst hlist
    rw [analyze_ipo_fresh_upcoming env idx now c hfresh] at hok ⊢
    obtain ⟨hlt, hrun⟩ := analyzeWithList_run env "upcoming" "UPCOMING"
      c.upcoming_ipos idx now c rec hkey hok
    rw [hrun]
    dsimp only
    refine ⟨rfl, lookupAnalysis_dictStore _ _ _, ?_⟩
    have hfresh2' : cacheIsStale now2 ({ c with analyses := dictStore (analysisKey "upcoming" idx (listingAt c.upcoming_ipos idx).name) rec c.analyses } : Cache) = false := hfresh2
    rw [analyze_ipo_fresh_upcoming env idx now2 _ hfresh2']
    dsimp only
    exact analyzeWithList_hit env "upcoming" "UPCOMING" c.upcoming_ipos idx now2 _ rec
      (by omega) (lookupAnalysis_dictStore _ _ _)

/-- Witness for C5: on the concrete fresh cache, the first analyze call runs
the summarizer once and stores the record; the immediate second call returns
it unchanged with zero summarizer runs. -/
theorem analyze_ipo_memoizes_witness :
    (analyze_ipo testEnv "current" 0 0 freshCache).geminiCalls = 1 ∧
    lookupAnalysis (analysisKey "current" 0 (listingAt [testIpo] 0).name)
        (analyze_ipo testEnv "current" 0 0 freshCache).cache.analyses = some sampleRecord ∧
    analyze_ipo testEnv "current" 0 0 (analyze_ipo testEnv "current" 0 0 freshCache).cache
      = ⟨ApiResponse.ok sampleRecord,
          (analyze_ipo testEnv "current" 0 0 freshCache).cache, 0⟩ :=
  analyze_ipo_memoizes testEnv "current" 0 0 0 freshCache [testIpo] sampleRecord
    (by decide) (by decide) (Or.inl rfl) (by decide) (by decide) (by decide)

/-- C7: a forced refresh resets the whole cache — in particular every
previously memoized analysis key becomes absent — and then re-scrapes, so
the cache ends fresh with the newly scraped lists, and any later successful
analyze on the refreshed cache re-runs the pipeline (one summarizer run)
instead of returning a pre-refresh record. -/
theorem refresh_ipos_clears_then_rescrapes (env : Env) (now : Nat) (c : Cache)
    (cur up : List IPOListing)
    (hscrape : env.scrape () = ScrapeResult.pair cur up) :
    (refresh_ipos env now c).2.current_ipos = cur ∧
    (refresh_ipos env now c).2.upcoming_ipos = up ∧
    (refresh_ipos env now c).2.last_updated = some now ∧
    cacheIsStale now (refresh_ipos env now c).2 = false ∧
    (refresh_ipos env now c).2.analyses = [] ∧
    (∀ key, lookupAnalysis key (refresh_ipos env now c).2.analyses = none) ∧
    (∀ ty lbl ipos idx now2 rec,
      (analyzeWithList env ty lbl ipos idx now2 (refresh_ipos env now c).2).response
          = ApiResponse.ok rec →
      (analyzeWithList env ty lbl ipos idx now2 (refresh_ipos env now c).2).geminiCalls = 1) := by
  have hguard1 : (if cur.isEmpty then ([] : List IPOListing) else cur) = cur := by
    cases cur <;> simp
  have hguard2 : (if up.isEmpty then ([] : List IPOListing) else up) = up := by
    cases up <;> simp
  have hcached : get_cached_ipos env.scrape now (⟨[], [], none, []⟩ : Cache)
      = Except.ok ⟨(cur, up), ⟨cur, up, some now, []⟩, 1⟩ := by
    unfold get_cached_ipos
    rw [if_pos (by rfl), hscrape]
    dsimp only [unpackScrape]
    rw [hguard1, hguard2]
  have hres : refresh_ipos env now c
      = (RefreshResponse.ok "IPO data refreshed successfully"
          (cur.length, up.length, cur.length + up.length),
         (⟨cur, up, some now, []⟩ : Cache)) := by
    unfold refresh_ipos
    dsimp only
    rw [hcached]
  rw [hres]
  refine ⟨rfl, rfl, rfl, ?_, rfl, fun key => rfl, ?_⟩
  · have h0 : cacheIsStale now (⟨cur, up, some now, []⟩ : Cache)
        = decide ((now - now) % 86400 > 3600) := rfl
    rw [h0, Nat.sub_self]
    rfl
  · intro ty lbl ipos idx now2 rec hok2
    have hrun := (analyzeWithList_run env ty lbl ipos idx now2
      (⟨cur, up, some now, []⟩ : Cache) rec rfl hok2).2
    rw [hrun]

/-- Witness for C7: refreshing the concrete preloaded cache empties the
analyses mapping — the previously memoized key included — and stamps the
new time. -/
theorem refresh_ipos_clears_then_rescrapes_witness :
    (refresh_ipos testEnv 5 preloadedCache).2.analyses = [] ∧
    (refresh_ipos testEnv 5 preloadedCache).2.last_updated = some 5 ∧
    lookupAnalysis (analysisKey "current" 0 "Acme")
        (refresh_ipos testEnv 5 preloadedCache).2.analyses = none := by
  have h := refresh_ipos_clears_then_rescrapes testEnv 5 preloadedCache [testIpo] [] rfl
  exact ⟨h.2.2.2.2.1, h.2.2.1, h.2.2.2.2.2.1 (analysisKey "current" 0 "Acme")⟩
